import Mathlib

/-!
Shallow embedding of the GPU device-driver dispatch logic of the `daemon`
package: device requests and instances, the updater composition
`specUpdaters.firstSuccessful`, the hook-based mutator `setNvidiaGPUs`,
and the CDI injector `cdiDeviceInjector.injectDevices`, together with
theorems about their behaviour.  Go's in-place mutation of the OCI spec is
embedded as explicit state passing: an updater returns the (possibly
mutated) spec together with an optional error, matching the fact that in
the source a failing updater still hands any mutations it already made on
to its caller.
-/

namespace Daemon

/-- A lifecycle hook entry (`specs.Hook`): executable path, arguments and
environment of the hook process. -/
structure Hook where
  path : String
  args : List String
  env : List String
  deriving DecidableEq, Repr

/-- The hook lists of a runtime spec (`specs.Hooks`).  The source only ever
touches the `Prestart` list, so only it is modelled. -/
structure Hooks where
  prestart : List Hook
  deriving DecidableEq, Repr

/-- The process block of a runtime spec (`specs.Process`).  The source only
ever touches the environment list `Env`. -/
structure SpecProcess where
  env : List String
  deriving DecidableEq, Repr

/-- The OCI runtime spec (`specs.Spec`) as used by the source: a process
environment list and an optional hooks block (`s.Hooks` is a nilable
pointer, allocated on first use). -/
structure Spec where
  process : SpecProcess
  hooks : Option Hooks
  deriving DecidableEq, Repr

/-- `container.DeviceRequest`: driver name, count, explicit device IDs,
capability groups and mechanism-specific options. -/
structure DeviceRequest where
  driver : String
  count : Int
  deviceIDs : List String
  capabilities : List (List String)
  options : List (String × String)
  deriving DecidableEq, Repr

/-- `deviceInstance`: a device request paired with the capability labels
selected for the chosen driver. -/
structure deviceInstance where
  req : DeviceRequest
  selectedCaps : List String
  deriving DecidableEq, Repr

/-- The errors produced by this package.  `wrap` models wrapping through
`fmt.Errorf` with a message, `join` models `errors.Join` of two non-nil
errors. -/
inductive DevErr where
  | conflictCountDeviceIDs
  | execNotFound (name : String)
  | incompatibleDeviceRequest (driver : String) (capabilities : List (List String))
  | wrap (msg : String) (err : DevErr)
  | join (a b : DevErr)
  deriving DecidableEq, Repr

/-- `errConflictCountDeviceIDs`: the conflicting-request error. -/
def errConflictCountDeviceIDs : DevErr := .conflictCountDeviceIDs

/-- `errors.Join errs err` for a possibly-nil accumulator `errs` and a
non-nil `err`: a nil accumulator yields `err` itself, otherwise the two
are joined (the source's nested join of the same non-nil errors flattens
to the same underlying causes). -/
def errJoin : Option DevErr → DevErr → Option DevErr
  | none, e => some e
  | some a, e => some (.join a e)

/-- The underlying causes of an error: a `join` contributes the causes of
both sides, every other error is its own single cause. -/
def DevErr.causes : DevErr → List DevErr
  | .join a b => a.causes ++ b.causes
  | e => [e]

/-- Causes of a possibly-nil error. -/
def causesOpt : Option DevErr → List DevErr
  | none => []
  | some e => e.causes

/-- The accumulated error after joining, in order, each error of `es` onto
an initially nil accumulator (the shape `firstSuccessful` builds when every
invoked updater fails). -/
def listToErr (es : List DevErr) : Option DevErr :=
  es.foldl errJoin none

/-- A spec-mutation function (`func(*specs.Spec, *deviceInstance) error`),
in state-passing form. -/
def specUpdater : Type := Spec → deviceInstance → Spec × Option DevErr

/-- `specUpdaters`: a list of updater functions, possibly with nil
entries. -/
def specUpdaters : Type := List (Option specUpdater)

/-- The loop of `specUpdaters.firstSuccessful`, with the error accumulator
`errs` made explicit: nil handlers are skipped, a failing handler's error
is joined onto the accumulator and its mutated spec handed on, and the
first succeeding handler's result is returned immediately. -/
def firstSuccessfulAux :
    List (Option specUpdater) → Option DevErr → Spec → deviceInstance → Spec × Option DevErr
  | [], errs, s, _ => (s, errs)
  | none :: rest, errs, s, dev => firstSuccessfulAux rest errs s dev
  | some handler :: rest, errs, s, dev =>
    match handler s dev with
    | (s', some e) => firstSuccessfulAux rest (errJoin errs e) s' dev
    | (s', none) => (s', none)

/-- `specUpdaters.firstSuccessful`: apply the updaters in order and return
on the first successful update; if all fail, return the joined errors. -/
def specUpdaters.firstSuccessful (h : specUpdaters) (s : Spec) (dev : deviceInstance) :
    Spec × Option DevErr :=
  firstSuccessfulAux h none s dev

/-- `nvidiaContainerRuntimeHookExecutableName`. -/
def nvidiaContainerRuntimeHookExecutableName : String := "nvidia-container-runtime-hook"

/-- `allNvidiaCaps`: the NVIDIA driver capabilities, as a list (the source
uses a set keyed by these strings; only membership is ever queried). -/
def allNvidiaCaps : List String :=
  ["compute", "compat32", "graphics", "utility", "video", "display"]

/-- `countToDevices count`: the list of device IDs `"0", "1", ...,
"count-1"`. -/
def countToDevices (count : Int) : List String :=
  (List.range count.toNat).map (fun i => Nat.repr i)

/-- `getRequestedDevicesIDs`: explicit IDs when present, else IDs derived
from a positive count, else `["all"]` for a negative count, else the empty
list. -/
def getRequestedDevicesIDs (req : DeviceRequest) : List String :=
  if 0 < req.deviceIDs.length then req.deviceIDs
  else if 0 < req.count then countToDevices req.count
  else if req.count < 0 then ["all"]
  else []

/-- `strings.SplitN s "=" 2` on the underlying character list: everything
before the first `'='` and, when a `'='` occurs, the remainder after it as
a single second part. -/
def splitN2 : List Char → List (List Char)
  | [] => [[]]
  | c :: cs =>
    if c = '=' then [[], cs]
    else
      match splitN2 cs with
      | [] => [[c]]
      | p :: rest => (c :: p) :: rest

/-- `cdiDeviceInjector`: maps plain device requests to CDI device
requests using a configured default CDI device kind. -/
structure cdiDeviceInjector where
  defaultCDIDeviceKind : String
  deriving DecidableEq, Repr

/-- `cdiDeviceInjector.normalizeDeviceID`: a device ID that splits (with
limit 2) into two parts around `'='` is already fully qualified and is
returned as-is; otherwise the default CDI device kind and an `'='` are
prefixed. -/
def cdiDeviceInjector.normalizeDeviceID (i : cdiDeviceInjector) (deviceID : String) : String :=
  if (splitN2 deviceID.data).length = 2 then deviceID
  else i.defaultCDIDeviceKind ++ "=" ++ deviceID

/-- `deviceDriver`: a capability set (nil meaning not capability
selectable) and a spec-mutation function. -/
structure deviceDriver where
  capset : Option (List String)
  updateSpec : specUpdater

/-- `cdiDeviceInjector.injectDevices`, with the process-wide
`deviceDrivers` registry passed explicitly: normalize the requested device
IDs to CDI names, succeed with no mutation when there are none, fail when
no driver is registered under `"cdi"`, and otherwise delegate to that
driver with a synthesized instance carrying the CDI names, a zero count,
nil options and nil selected capabilities. -/
def cdiDeviceInjector.injectDevices (i : cdiDeviceInjector)
    (deviceDrivers : String → Option deviceDriver)
    (s : Spec) (dev : deviceInstance) : Spec × Option DevErr :=
  let cdiDeviceIDs := (getRequestedDevicesIDs dev.req).map i.normalizeDeviceID
  if cdiDeviceIDs.length = 0 then (s, none)
  else
    match deviceDrivers "cdi" with
    | none =>
      (s, some (.wrap "no CDI device driver registered"
        (.incompatibleDeviceRequest dev.req.driver dev.req.capabilities)))
    | some cdiDeviceDriver =>
      let cdiRequest : DeviceRequest :=
        { dev.req with count := 0, options := [], deviceIDs := cdiDeviceIDs }
      cdiDeviceDriver.updateSpec s { req := cdiRequest, selectedCaps := [] }

/-- `setNvidiaGPUs`, with `exec.LookPath` and `os.Environ()` passed
explicitly as the ambient host state: reject conflicting requests, exit
early when no devices are requested, append the visible-devices (and,
when any NVIDIA capabilities were selected, the driver-capabilities)
environment entries, and append the prestart hook for the resolved hook
executable — failing without undoing the environment appends when the
executable is absent. -/
def setNvidiaGPUs (lookPath : String → Option String) (osEnviron : List String)
    (s : Spec) (dev : deviceInstance) : Spec × Option DevErr :=
  let req := dev.req
  if req.count ≠ 0 ∧ 0 < req.deviceIDs.length then
    (s, some .conflictCountDeviceIDs)
  else
    let deviceIDs := getRequestedDevicesIDs req
    if deviceIDs.length = 0 then (s, none)
    else
      let s₁ : Spec :=
        { s with process := { s.process with
            env := s.process.env ++
              ["NVIDIA_VISIBLE_DEVICES=" ++ String.intercalate "," deviceIDs] } }
      let nvidiaCaps := dev.selectedCaps.filter (fun c => allNvidiaCaps.contains c)
      let s₂ : Spec :=
        if nvidiaCaps ≠ [] then
          { s₁ with process := { s₁.process with
              env := s₁.process.env ++
                ["NVIDIA_DRIVER_CAPABILITIES=" ++ String.intercalate "," nvidiaCaps] } }
        else s₁
      match lookPath nvidiaContainerRuntimeHookExecutableName with
      | none => (s₂, some (.execNotFound nvidiaContainerRuntimeHookExecutableName))
      | some path =>
        let hooks := s₂.hooks.getD { prestart := [] }
        ({ s₂ with hooks := some { hooks with
            prestart := hooks.prestart ++
              [{ path := path,
                 args := [nvidiaContainerRuntimeHookExecutableName, "prestart"],
                 env := osEnviron }] } }, none)

end Daemon

namespace Daemon

/-! ### Helper lemmas about the embedded definitions -/

lemma splitN2_of_not_mem (cs : List Char) (h : '=' ∉ cs) : splitN2 cs = [cs] := by
  induction cs with
  | nil => rfl
  | cons c cs ih =>
    have hc : ¬ c = '=' := fun he => h (List.mem_cons.mpr (Or.inl he.symm))
    have ih2 := ih (fun hm => h (List.mem_cons_of_mem _ hm))
    simp [splitN2, hc, ih2]

lemma splitN2_length_of_mem (cs : List Char) (h : '=' ∈ cs) : (splitN2 cs).length = 2 := by
  induction cs with
  | nil => cases h
  | cons c cs ih =>
    by_cases hc : c = '='
    · simp [splitN2, hc]
    · have hm : '=' ∈ cs := by
        rcases List.mem_cons.mp h with h1 | h1
        · exact absurd h1.symm hc
        · exact h1
      have ih2 := ih hm
      cases hsp : splitN2 cs with
      | nil => rw [hsp] at ih2; simp at ih2
      | cons p rest =>
        rw [hsp] at ih2
        simp only [List.length_cons] at ih2
        simp only [splitN2, if_neg hc, hsp, List.length_cons]
        omega

lemma normalizeDeviceID_of_mem (i : cdiDeviceInjector) (deviceID : String)
    (h : '=' ∈ deviceID.data) : i.normalizeDeviceID deviceID = deviceID := by
  simp [cdiDeviceInjector.normalizeDeviceID, splitN2_length_of_mem _ h]

lemma normalizeDeviceID_of_not_mem (i : cdiDeviceInjector) (deviceID : String)
    (h : '=' ∉ deviceID.data) :
    i.normalizeDeviceID deviceID = i.defaultCDIDeviceKind ++ "=" ++ deviceID := by
  simp [cdiDeviceInjector.normalizeDeviceID, splitN2_of_not_mem _ h]

lemma eq_mem_appended (a b : String) : '=' ∈ (a ++ "=" ++ b).data := by
  have h1 : '=' ∈ ("=" : String).data := by decide
  simp only [String.data_append, List.mem_append]
  exact Or.inl (Or.inr h1)

/-- The number of occurrences of the separator character in a device
identifier. -/
def countEq (s : String) : Nat := s.data.count '='

lemma foldl_errJoin_ne_none (es : List DevErr) : ∀ a, es.foldl errJoin (some a) ≠ none := by
  induction es with
  | nil => intro a h; cases h
  | cons e es ih =>
    intro a
    rw [List.foldl_cons]
    simp only [errJoin]
    exact ih _

lemma listToErr_ne_none {es : List DevErr} (h : es ≠ []) : listToErr es ≠ none := by
  cases es with
  | nil => exact absurd rfl h
  | cons e es =>
    show (e :: es).foldl errJoin none ≠ none
    rw [List.foldl_cons]
    exact foldl_errJoin_ne_none es e

lemma causesOpt_foldl (es : List DevErr) :
    ∀ acc, causesOpt (es.foldl errJoin acc) = causesOpt acc ++ (es.map DevErr.causes).flatten := by
  induction es with
  | nil => intro acc; simp
  | cons e es ih =>
    intro acc
    rw [List.foldl_cons, ih]
    cases acc with
    | none => simp [errJoin, causesOpt]
    | some a => simp [errJoin, causesOpt, DevErr.causes, List.append_assoc]

/-- A run of updaters in which every non-nil entry, invoked on the spec as
left by its predecessors, fails: `s'` is the spec after all the failed
attempts and `es` the errors they returned, in order. -/
inductive FailsThrough :
    List (Option specUpdater) → Spec → deviceInstance → Spec → List DevErr → Prop
  | nil (s : Spec) (dev : deviceInstance) : FailsThrough [] s dev s []
  | skip {l : List (Option specUpdater)} {s : Spec} {dev : deviceInstance} {s' : Spec}
      {es : List DevErr} (h : FailsThrough l s dev s' es) :
      FailsThrough (none :: l) s dev s' es
  | fail {f : specUpdater} {l : List (Option specUpdater)} {s s₁ : Spec} {dev : deviceInstance}
      {s' : Spec} {e : DevErr} {es : List DevErr} (hf : f s dev = (s₁, some e))
      (h : FailsThrough l s₁ dev s' es) :
      FailsThrough (some f :: l) s dev s' (e :: es)

lemma firstSuccessfulAux_failsThrough {l : List (Option specUpdater)} {s : Spec}
    {dev : deviceInstance} {s' : Spec} {es : List DevErr}
    (hft : FailsThrough l s dev s' es) :
    ∀ acc, firstSuccessfulAux l acc s dev = (s', es.foldl errJoin acc) := by
  induction hft with
  | nil s dev => intro acc; rfl
  | skip h ih => intro acc; exact ih acc
  | fail hf h ih =>
    intro acc
    simp only [firstSuccessfulAux]
    rw [hf, List.foldl_cons]
    exact ih _

lemma firstSuccessfulAux_allNone (l : List (Option specUpdater)) (h : ∀ u ∈ l, u = none) :
    ∀ (errs : Option DevErr) (s : Spec) (dev : deviceInstance),
      firstSuccessfulAux l errs s dev = (s, errs) := by
  induction l with
  | nil => intro errs s dev; rfl
  | cons u rest ih =>
    intro errs s dev
    have hu : u = none := h u (List.mem_cons_self u rest)
    subst hu
    exact ih (fun v hv => h v (List.mem_cons_of_mem _ hv)) errs s dev

/-! ### Append-only spec mutation -/

/-- A list extends another when the second is the first with entries
appended after it: every earlier entry is kept, unmodified and in its
original order. -/
def extendsList {α : Type _} (a b : List α) : Prop := ∃ t, b = a ++ t

lemma extendsList_refl {α : Type _} (a : List α) : extendsList a a := ⟨[], by simp⟩

lemma extendsList_append {α : Type _} (a t : List α) : extendsList a (a ++ t) := ⟨t, rfl⟩

lemma extendsList_nil {α : Type _} (l : List α) : extendsList [] l := ⟨l, rfl⟩

lemma extendsList_trans {α : Type _} {a b c : List α}
    (h₁ : extendsList a b) (h₂ : extendsList b c) : extendsList a c := by
  obtain ⟨t, rfl⟩ := h₁
  obtain ⟨u, rfl⟩ := h₂
  exact ⟨t ++ u, by rw [List.append_assoc]⟩

/-- The prestart hook list of a spec; empty when no hooks block was
allocated. -/
def prestartOf (s : Spec) : List Hook :=
  match s.hooks with
  | none => []
  | some h => h.prestart

/-- The call only appended: prior environment entries and prior prestart
hooks are all still present, unmodified, in order, at the front. -/
def SpecAppendOnly (s s' : Spec) : Prop :=
  extendsList s.process.env s'.process.env ∧ extendsList (prestartOf s) (prestartOf s')

lemma SpecAppendOnly_refl (s : Spec) : SpecAppendOnly s s :=
  ⟨extendsList_refl _, extendsList_refl _⟩

end Daemon

namespace Daemon

lemma getRequestedDevicesIDs_of_ids (req : DeviceRequest) (h : req.deviceIDs ≠ []) :
    getRequestedDevicesIDs req = req.deviceIDs := by
  simp [getRequestedDevicesIDs, List.length_pos.mpr h]

lemma getRequestedDevicesIDs_count_pos (req : DeviceRequest) (h0 : req.deviceIDs = [])
    (hc : 0 < req.count) : getRequestedDevicesIDs req = countToDevices req.count := by
  simp [getRequestedDevicesIDs, h0, hc]

lemma getRequestedDevicesIDs_count_neg (req : DeviceRequest) (h0 : req.deviceIDs = [])
    (hc : req.count < 0) : getRequestedDevicesIDs req = ["all"] := by
  have hnp : ¬ 0 < req.count := by omega
  simp [getRequestedDevicesIDs, h0, hnp, hc]

lemma getRequestedDevicesIDs_zero (req : DeviceRequest) (h0 : req.deviceIDs = [])
    (hc : req.count = 0) : getRequestedDevicesIDs req = [] := by
  simp [getRequestedDevicesIDs, h0, hc]

lemma mapped_length_ne_zero (i : cdiDeviceInjector) (l : List String) (h : l ≠ []) :
    ¬ (l.map i.normalizeDeviceID).length = 0 := by
  rw [List.length_map, List.length_eq_zero]
  exact h

lemma injectDevices_of_empty (i : cdiDeviceInjector) (reg : String → Option deviceDriver)
    (s : Spec) (dev : deviceInstance)
    (h : (getRequestedDevicesIDs dev.req).map i.normalizeDeviceID = []) :
    i.injectDevices reg s dev = (s, none) := by
  simp [cdiDeviceInjector.injectDevices, h]

lemma injectDevices_of_absent (i : cdiDeviceInjector) (reg : String → Option deviceDriver)
    (s : Spec) (dev : deviceInstance) (hne : getRequestedDevicesIDs dev.req ≠ [])
    (hreg : reg "cdi" = none) :
    i.injectDevices reg s dev =
      (s, some (.wrap "no CDI device driver registered"
        (.incompatibleDeviceRequest dev.req.driver dev.req.capabilities))) := by
  simp [cdiDeviceInjector.injectDevices, hne, hreg]

lemma injectDevices_of_present (i : cdiDeviceInjector) (reg : String → Option deviceDriver)
    (s : Spec) (dev : deviceInstance) (d : deviceDriver)
    (hne : getRequestedDevicesIDs dev.req ≠ []) (hreg : reg "cdi" = some d) :
    i.injectDevices reg s dev =
      d.updateSpec s
        { req :=
            { dev.req with
                count := 0
                options := []
                deviceIDs := (getRequestedDevicesIDs dev.req).map i.normalizeDeviceID },
          selectedCaps := [] } := by
  simp [cdiDeviceInjector.injectDevices, hne, hreg]

lemma setNvidiaGPUs_conflict (lookPath : String → Option String) (osEnviron : List String)
    (s : Spec) (dev : deviceInstance) (h1 : dev.req.count ≠ 0) (h2 : dev.req.deviceIDs ≠ []) :
    setNvidiaGPUs lookPath osEnviron s dev = (s, some errConflictCountDeviceIDs) := by
  simp [setNvidiaGPUs, errConflictCountDeviceIDs, h1, List.length_pos.mpr h2]

lemma setNvidiaGPUs_appendOnly (lookPath : String → Option String) (osEnviron : List String)
    (s : Spec) (dev : deviceInstance) :
    SpecAppendOnly s ((setNvidiaGPUs lookPath osEnviron s dev).1) := by
  obtain ⟨⟨env0⟩, hooks0⟩ := s
  simp only [setNvidiaGPUs]
  repeat' split
  all_goals
    first
      | exact SpecAppendOnly_refl _
      | (cases hooks0 <;>
          (refine ⟨?_, ?_⟩ <;>
            (dsimp only [prestartOf, Option.getD]
             first
               | exact extendsList_refl _
               | exact extendsList_nil _
               | exact extendsList_append _ _
               | (rw [List.append_assoc]; exact extendsList_append _ _))))

lemma injectDevices_appendOnly (i : cdiDeviceInjector) (reg : String → Option deviceDriver)
    (s : Spec) (dev : deviceInstance)
    (hdel : ∀ d, reg "cdi" = some d →
      ∀ (s' : Spec) (dev' : deviceInstance), SpecAppendOnly s' ((d.updateSpec s' dev').1)) :
    SpecAppendOnly s ((i.injectDevices reg s dev).1) := by
  simp only [cdiDeviceInjector.injectDevices]
  split
  · exact SpecAppendOnly_refl _
  · split
    · exact SpecAppendOnly_refl _
    · next d heq => exact hdel d heq _ _

/-! ### Concrete fixtures used in witnesses and counterexamples -/

/-- An empty spec: no environment entries, no hooks block. -/
def spec0 : Spec := { process := { env := [] }, hooks := none }

/-- An empty device request. -/
def req0 : DeviceRequest :=
  { driver := "", count := 0, deviceIDs := [], capabilities := [], options := [] }

/-- A device instance with an empty request. -/
def dev0 : deviceInstance := { req := req0, selectedCaps := [] }

/-- A conflicting device instance: both a count and explicit device IDs. -/
def devC : deviceInstance :=
  { req := { req0 with count := 1, deviceIDs := ["0"] }, selectedCaps := [] }

/-- The spec after appending the environment entry "A" to the empty spec. -/
def specA : Spec := { process := { env := ["A"] }, hooks := none }

/-- The spec after appending the environment entry "B" to the empty spec. -/
def specB : Spec := { process := { env := ["B"] }, hooks := none }

/-- An updater that appends the environment entry "A" and then fails. -/
def updA : specUpdater :=
  fun s _ =>
    ({ s with process := { s.process with env := s.process.env ++ ["A"] } },
     some (.execNotFound "a"))

/-- An updater that appends the environment entry "B" and succeeds. -/
def updB : specUpdater :=
  fun s _ =>
    ({ s with process := { s.process with env := s.process.env ++ ["B"] } }, none)

/-- An updater that fails without mutating the spec. -/
def updFail : specUpdater :=
  fun s _ => (s, some (.execNotFound "nvidia-container-runtime-hook"))

/-- A device driver whose update function is `updB`. -/
def cdiDriverB : deviceDriver := { capset := none, updateSpec := updB }

/-- A registry holding only a driver named "cdi". -/
def regCdi : String → Option deviceDriver :=
  fun name => if name = "cdi" then some cdiDriverB else none

end Daemon

namespace Daemon

lemma countToDevices_get (n : Int) (idx : Nat) (h : idx < (countToDevices n).length) :
    (countToDevices n).get ⟨idx, h⟩ = Nat.repr idx := by
  dsimp only [countToDevices] at h ⊢
  rw [List.get_eq_getElem, List.getElem_map, List.getElem_range]

/-! ### The claims -/

/-- C1 (counterexample): a request with both a non-zero count and explicit
device IDs is not rejected by `injectDevices` with the conflicting-request
error; with a "cdi" driver registered the injection succeeds and mutates
the spec. -/
theorem injectDevices_accepts_conflicting_request :
    devC.req.count ≠ 0
    ∧ devC.req.deviceIDs ≠ []
    ∧ (cdiDeviceInjector.injectDevices ⟨"nvidia.com/gpu"⟩ regCdi spec0 devC).2
        ≠ some DevErr.conflictCountDeviceIDs
    ∧ (cdiDeviceInjector.injectDevices ⟨"nvidia.com/gpu"⟩ regCdi spec0 devC).2 = none
    ∧ (cdiDeviceInjector.injectDevices ⟨"nvidia.com/gpu"⟩ regCdi spec0 devC).1 ≠ spec0 := by
  decide

/-- C1 (amended): for every request with a non-zero count and non-empty
device IDs, `setNvidiaGPUs` rejects with the conflicting-request error
before any spec mutation (the spec is returned unchanged), while
`injectDevices` performs no such validation: it resolves the request from
its explicit device IDs and its behaviour does not depend on the count. -/
theorem conflict_rejected_by_setNvidiaGPUs_only :
    (∀ (lookPath : String → Option String) (osEnviron : List String) (s : Spec)
        (dev : deviceInstance), dev.req.count ≠ 0 → dev.req.deviceIDs ≠ [] →
        setNvidiaGPUs lookPath osEnviron s dev = (s, some errConflictCountDeviceIDs))
    ∧ (∀ (reg : String → Option deviceDriver) (i : cdiDeviceInjector) (s : Spec)
        (req : DeviceRequest) (caps : List String) (c : Int), req.deviceIDs ≠ [] →
        i.injectDevices reg s { req := { req with count := c }, selectedCaps := caps }
          = i.injectDevices reg s { req := { req with count := 0 }, selectedCaps := caps }) := by
  refine ⟨fun lookPath osEnviron s dev h1 h2 =>
    setNvidiaGPUs_conflict lookPath osEnviron s dev h1 h2, ?_⟩
  intro reg i s req caps c h
  have hc : getRequestedDevicesIDs { req with count := c } = req.deviceIDs :=
    getRequestedDevicesIDs_of_ids _ h
  have h0 : getRequestedDevicesIDs { req with count := 0 } = req.deviceIDs :=
    getRequestedDevicesIDs_of_ids _ h
  simp only [cdiDeviceInjector.injectDevices]
  rw [hc, h0]

/-- C1 (witness). -/
theorem conflict_rejected_by_setNvidiaGPUs_only_witness :
    setNvidiaGPUs (fun _ => none) [] spec0 devC = (spec0, some errConflictCountDeviceIDs)
    ∧ cdiDeviceInjector.injectDevices ⟨"nvidia.com/gpu"⟩ regCdi spec0
        { req := { req0 with deviceIDs := ["0"], count := 1 }, selectedCaps := [] }
      = cdiDeviceInjector.injectDevices ⟨"nvidia.com/gpu"⟩ regCdi spec0
        { req := { req0 with deviceIDs := ["0"], count := 0 }, selectedCaps := [] } := by
  obtain ⟨h1, h2⟩ := conflict_rejected_by_setNvidiaGPUs_only
  exact ⟨h1 (fun _ => none) [] spec0 devC (by decide) (by decide),
    h2 regCdi ⟨"nvidia.com/gpu"⟩ spec0 { req0 with deviceIDs := ["0"] } [] 1 (by decide)⟩


/-- C2: the composite dispatcher: the empty sequence succeeds trivially, a
sequence of only nil entries succeeds trivially, nil entries are skipped,
the first succeeding updater ends the dispatch with its result (no later
entry is invoked), and when every invoked updater fails the dispatch
returns the spec after the failed attempts together with the join of all
the errors, preserving every underlying cause. -/
theorem firstSuccessful_contract :
    (∀ (s : Spec) (dev : deviceInstance),
        specUpdaters.firstSuccessful [] s dev = (s, none))
    ∧ (∀ (l : List (Option specUpdater)) (s : Spec) (dev : deviceInstance),
        (∀ u ∈ l, u = none) → specUpdaters.firstSuccessful l s dev = (s, none))
    ∧ (∀ (l : List (Option specUpdater)) (s : Spec) (dev : deviceInstance),
        specUpdaters.firstSuccessful (none :: l) s dev = specUpdaters.firstSuccessful l s dev)
    ∧ (∀ (f : specUpdater) (l : List (Option specUpdater)) (s sf : Spec) (dev : deviceInstance),
        f s dev = (sf, none) →
        specUpdaters.firstSuccessful (some f :: l) s dev = (sf, none))
    ∧ (∀ (l : List (Option specUpdater)) (s : Spec) (dev : deviceInstance) (s' : Spec)
        (es : List DevErr), FailsThrough l s dev s' es →
          specUpdaters.firstSuccessful l s dev = (s', listToErr es)
          ∧ (es ≠ [] → (specUpdaters.firstSuccessful l s dev).2 ≠ none)
          ∧ ∀ e ∈ es, ∀ cause ∈ e.causes, cause ∈ causesOpt (listToErr es)) := by
  refine ⟨fun s dev => rfl, ?_, fun l s dev => rfl, ?_, ?_⟩
  · intro l s dev h
    exact firstSuccessfulAux_allNone l h none s dev
  · intro f l s sf dev hf
    show firstSuccessfulAux (some f :: l) none s dev = (sf, none)
    simp only [firstSuccessfulAux]
    rw [hf]
  · intro l s dev s' es hft
    have h1 : specUpdaters.firstSuccessful l s dev = (s', listToErr es) :=
      firstSuccessfulAux_failsThrough hft none
    refine ⟨h1, ?_, ?_⟩
    · intro hne
      rw [h1]
      exact listToErr_ne_none hne
    · intro e he cause hcause
      rw [show causesOpt (listToErr es)
            = causesOpt none ++ (es.map DevErr.causes).flatten from causesOpt_foldl es none]
      simp only [causesOpt, List.nil_append]
      exact List.mem_flatten.mpr ⟨e.causes, List.mem_map_of_mem _ he, hcause⟩

/-- C2 (witness). -/
theorem firstSuccessful_contract_witness :
    specUpdaters.firstSuccessful [] spec0 dev0 = (spec0, none)
    ∧ specUpdaters.firstSuccessful [none] spec0 dev0 = (spec0, none)
    ∧ specUpdaters.firstSuccessful (none :: [some updB]) spec0 dev0
        = specUpdaters.firstSuccessful [some updB] spec0 dev0
    ∧ specUpdaters.firstSuccessful [some updB] spec0 dev0 = (specB, none)
    ∧ (specUpdaters.firstSuccessful [some updA] spec0 dev0
          = (specA, listToErr [DevErr.execNotFound "a"])
       ∧ ([DevErr.execNotFound "a"] ≠ ([] : List DevErr) →
            (specUpdaters.firstSuccessful [some updA] spec0 dev0).2 ≠ none)
       ∧ ∀ e ∈ [DevErr.execNotFound "a"], ∀ cause ∈ e.causes,
            cause ∈ causesOpt (listToErr [DevErr.execNotFound "a"])) := by
  obtain ⟨h1, h2, h3, h4, h5⟩ := firstSuccessful_contract
  exact ⟨h1 spec0 dev0,
    h2 [none] spec0 dev0 (by simp),
    h3 [some updB] spec0 dev0,
    h4 updB [] spec0 specB dev0 (by decide),
    h5 [some updA] spec0 dev0 specA [DevErr.execNotFound "a"]
      (FailsThrough.fail (by decide) (FailsThrough.nil specA dev0))⟩


/-- C3: device-identifier resolution: explicit IDs win when non-empty;
with no IDs and a positive count N the resolved list has length N and its
entry at each index idx is the decimal rendering of idx; with no IDs and a
negative count it is the single token "all"; with no IDs and a zero count
it is empty. -/
theorem getRequestedDevicesIDs_resolution
    (a b c d : DeviceRequest)
    (ha : a.deviceIDs ≠ [])
    (hb0 : b.deviceIDs = []) (hb : 0 < b.count)
    (hc0 : c.deviceIDs = []) (hc : c.count < 0)
    (hd0 : d.deviceIDs = []) (hd : d.count = 0) :
    getRequestedDevicesIDs a = a.deviceIDs
    ∧ ((getRequestedDevicesIDs b).length = b.count.toNat
       ∧ ∀ (idx : Nat) (hidx : idx < (getRequestedDevicesIDs b).length),
           (getRequestedDevicesIDs b).get ⟨idx, hidx⟩ = Nat.repr idx)
    ∧ getRequestedDevicesIDs c = ["all"]
    ∧ getRequestedDevicesIDs d = [] := by
  refine ⟨getRequestedDevicesIDs_of_ids a ha, ⟨?_, ?_⟩,
    getRequestedDevicesIDs_count_neg c hc0 hc, getRequestedDevicesIDs_zero d hd0 hd⟩
  · rw [getRequestedDevicesIDs_count_pos b hb0 hb]
    simp [countToDevices]
  · intro idx
    rw [getRequestedDevicesIDs_count_pos b hb0 hb]
    intro hidx
    exact countToDevices_get b.count idx hidx

/-- C3 (witness). -/
theorem getRequestedDevicesIDs_resolution_witness :
    getRequestedDevicesIDs { req0 with deviceIDs := ["a", "b"] } = ["a", "b"]
    ∧ ((getRequestedDevicesIDs { req0 with count := 2 }).length = 2
       ∧ ∀ (idx : Nat) (hidx : idx < (getRequestedDevicesIDs { req0 with count := 2 }).length),
           (getRequestedDevicesIDs { req0 with count := 2 }).get ⟨idx, hidx⟩ = Nat.repr idx)
    ∧ getRequestedDevicesIDs { req0 with count := -1 } = ["all"]
    ∧ getRequestedDevicesIDs req0 = [] :=
  getRequestedDevicesIDs_resolution
    { req0 with deviceIDs := ["a", "b"] } { req0 with count := 2 }
    { req0 with count := -1 } req0
    (by decide) rfl (by decide) rfl (by decide) rfl rfl

/-- C4: with a non-empty resolved device list, `injectDevices` succeeds
with no mutation when the normalized list is empty (vacuous: normalization
maps the resolved list one-to-one; the case is stated via a second
instance whose resolved list normalizes to nothing), fails with the
wrapped incompatible-device-request error naming the original driver and
capability groups when no "cdi" driver is registered, and otherwise
delegates to the "cdi" driver with a synthesized instance carrying
exactly the normalized CDI names, a cleared count, cleared options and
cleared selected capabilities. -/
theorem injectDevices_behaviour (i : cdiDeviceInjector) (s : Spec)
    (dev : deviceInstance) (hne : getRequestedDevicesIDs dev.req ≠ [])
    (dev₀ : deviceInstance) (reg₀ : String → Option deviceDriver)
    (h₀ : (getRequestedDevicesIDs dev₀.req).map i.normalizeDeviceID = [])
    (regA : String → Option deviceDriver) (hA : regA "cdi" = none)
    (regP : String → Option deviceDriver) (d : deviceDriver) (hP : regP "cdi" = some d) :
    i.injectDevices reg₀ s dev₀ = (s, none)
    ∧ i.injectDevices regA s dev =
        (s, some (.wrap "no CDI device driver registered"
          (.incompatibleDeviceRequest dev.req.driver dev.req.capabilities)))
    ∧ i.injectDevices regP s dev =
        d.updateSpec s
          { req :=
              { dev.req with
                  count := 0
                  options := []
                  deviceIDs := (getRequestedDevicesIDs dev.req).map i.normalizeDeviceID },
            selectedCaps := [] } :=
  ⟨injectDevices_of_empty i reg₀ s dev₀ h₀,
   injectDevices_of_absent i regA s dev hne hA,
   injectDevices_of_present i regP s dev d hne hP⟩

/-- C4 (witness). -/
theorem injectDevices_behaviour_witness :
    cdiDeviceInjector.injectDevices ⟨"nvidia.com/gpu"⟩ (fun _ => none) spec0 dev0 = (spec0, none)
    ∧ cdiDeviceInjector.injectDevices ⟨"nvidia.com/gpu"⟩ (fun _ => none) spec0 devC =
        (spec0, some (.wrap "no CDI device driver registered"
          (.incompatibleDeviceRequest devC.req.driver devC.req.capabilities)))
    ∧ cdiDeviceInjector.injectDevices ⟨"nvidia.com/gpu"⟩ regCdi spec0 devC =
        cdiDriverB.updateSpec spec0
          { req :=
              { devC.req with
                  count := 0
                  options := []
                  deviceIDs := (getRequestedDevicesIDs devC.req).map
                    (cdiDeviceInjector.normalizeDeviceID ⟨"nvidia.com/gpu"⟩) },
            selectedCaps := [] } :=
  injectDevices_behaviour ⟨"nvidia.com/gpu"⟩ spec0 devC (by decide) dev0
    (fun _ => none) (by decide) (fun _ => none) rfl regCdi cdiDriverB rfl


/-- C5 (counterexample): normalization does not pass an identifier through
only when it contains exactly one separator; an identifier with two
separators, such as "a=b=c", is also passed through unchanged, where the
exactly-one reading would require prefixing the default kind. -/
theorem normalizeDeviceID_exactly_one_fails :
    ¬ (∀ (i : cdiDeviceInjector) (deviceID : String),
        i.normalizeDeviceID deviceID =
          if countEq deviceID = 1 then deviceID
          else i.defaultCDIDeviceKind ++ "=" ++ deviceID) :=
  fun h => absurd (h ⟨"nvidia.com/gpu"⟩ "a=b=c") (by decide)

/-- C5 (amended): normalization passes an identifier through unchanged
when it contains at least one separator, and otherwise returns the
configured default kind, an "=", and the identifier; in particular "0"
with default kind "nvidia.com/gpu" normalizes to "nvidia.com/gpu=0" and
"vendor/class=7" is unchanged. -/
theorem normalizeDeviceID_at_least_one :
    (∀ (i : cdiDeviceInjector) (deviceID : String),
        i.normalizeDeviceID deviceID =
          if 1 ≤ countEq deviceID then deviceID
          else i.defaultCDIDeviceKind ++ "=" ++ deviceID)
    ∧ cdiDeviceInjector.normalizeDeviceID ⟨"nvidia.com/gpu"⟩ "0" = "nvidia.com/gpu=0"
    ∧ cdiDeviceInjector.normalizeDeviceID ⟨"nvidia.com/gpu"⟩ "vendor/class=7"
        = "vendor/class=7" := by
  refine ⟨fun i deviceID => ?_, by decide, by decide⟩
  by_cases hm : '=' ∈ deviceID.data
  · have h1 : 1 ≤ countEq deviceID := List.count_pos_iff.mpr hm
    rw [if_pos h1]
    exact normalizeDeviceID_of_mem i deviceID hm
  · have h1 : ¬ 1 ≤ countEq deviceID := by
      rw [show countEq deviceID = 0 from List.count_eq_zero.mpr hm]
      decide
    rw [if_neg h1]
    exact normalizeDeviceID_of_not_mem i deviceID hm

/-- C6 (counterexample): in a two-element composite where the first
updater mutates the spec and then fails and the second succeeds, the
dispatch reports success but the result also carries the first updater\'s
mutation, not exactly the second\'s. -/
theorem firstSuccessful_keeps_failed_mutation :
    (updA spec0 dev0).2 ≠ none
    ∧ (updB spec0 dev0).2 = none
    ∧ (specUpdaters.firstSuccessful [some updA, some updB] spec0 dev0).2 = none
    ∧ (specUpdaters.firstSuccessful [some updA, some updB] spec0 dev0).1 ≠ (updB spec0 dev0).1
    ∧ (specUpdaters.firstSuccessful [some updA, some updB] spec0 dev0).1
        = { process := { env := ["A", "B"] }, hooks := none } := by
  decide

/-- C6 (amended): in a two-element composite where the first updater fails
and the second succeeds on the spec as the first left it, the dispatch
reports success with the second updater\'s result; in particular, when the
failed attempt left the spec unchanged, the result carries exactly the
second updater\'s mutation of the original spec. -/
theorem firstSuccessful_two_element (A B : specUpdater) (s sA sB : Spec)
    (dev : deviceInstance) (e : DevErr)
    (hA : A s dev = (sA, some e)) (hB : B sA dev = (sB, none)) :
    specUpdaters.firstSuccessful [some A, some B] s dev = (sB, none)
    ∧ (sA = s →
        specUpdaters.firstSuccessful [some A, some B] s dev = ((B s dev).1, none)) := by
  have h1 : specUpdaters.firstSuccessful [some A, some B] s dev = (sB, none) := by
    show firstSuccessfulAux [some A, some B] none s dev = (sB, none)
    simp only [firstSuccessfulAux]
    rw [hA]
    dsimp only
    rw [hB]
  refine ⟨h1, fun hs => ?_⟩
  subst hs
  rw [h1, hB]

/-- C6 (witness). -/
theorem firstSuccessful_two_element_witness :
    specUpdaters.firstSuccessful [some updFail, some updB] spec0 dev0 = (specB, none)
    ∧ (spec0 = spec0 →
        specUpdaters.firstSuccessful [some updFail, some updB] spec0 dev0
          = ((updB spec0 dev0).1, none)) :=
  firstSuccessful_two_element updFail updB spec0 spec0 specB dev0
    (DevErr.execNotFound "nvidia-container-runtime-hook") (by decide) (by decide)


/-- C7: both mutators only append to the process environment list and the
prestart hooks list: after any call, successful or not, every entry
present beforehand is still present, unmodified and in its original
order, as a front segment of the resulting lists (for `injectDevices`,
under the hypothesis that the delegated "cdi" driver, an external
collaborator, is itself append-only; the injector performs no mutation of
its own). -/
theorem mutators_append_only :
    (∀ (lookPath : String → Option String) (osEnviron : List String) (s : Spec)
        (dev : deviceInstance),
        SpecAppendOnly s ((setNvidiaGPUs lookPath osEnviron s dev).1))
    ∧ (∀ (i : cdiDeviceInjector) (reg : String → Option deviceDriver) (s : Spec)
        (dev : deviceInstance),
        (∀ d, reg "cdi" = some d →
          ∀ (s' : Spec) (dev' : deviceInstance), SpecAppendOnly s' ((d.updateSpec s' dev').1)) →
        SpecAppendOnly s ((i.injectDevices reg s dev).1)) :=
  ⟨setNvidiaGPUs_appendOnly, injectDevices_appendOnly⟩

/-- C7 (witness). -/
theorem mutators_append_only_witness :
    SpecAppendOnly spec0
      ((setNvidiaGPUs (fun _ => none) [] spec0
        { req := { req0 with count := 2 }, selectedCaps := ["compute"] }).1)
    ∧ SpecAppendOnly spec0
        ((cdiDeviceInjector.injectDevices ⟨"nvidia.com/gpu"⟩ (fun _ => none) spec0 devC).1) := by
  obtain ⟨h1, h2⟩ := mutators_append_only
  exact ⟨h1 (fun _ => none) [] spec0 { req := { req0 with count := 2 }, selectedCaps := ["compute"] },
    h2 ⟨"nvidia.com/gpu"⟩ (fun _ => none) spec0 devC (fun d hd => Option.noConfusion hd)⟩

/-- C8: a request with non-empty explicit device IDs resolves to exactly
those IDs, whatever its count is. -/
theorem getRequestedDevicesIDs_ignores_count (req : DeviceRequest) (c : Int)
    (h : req.deviceIDs ≠ []) :
    getRequestedDevicesIDs { req with count := c } = req.deviceIDs :=
  getRequestedDevicesIDs_of_ids _ h

/-- C8 (witness). -/
theorem getRequestedDevicesIDs_ignores_count_witness :
    getRequestedDevicesIDs { req0 with deviceIDs := ["a"], count := 5 } = ["a"] :=
  getRequestedDevicesIDs_ignores_count { req0 with deviceIDs := ["a"] } 5 (by decide)

/-- C9: when the resolved device list is non-empty and no driver is
registered under "cdi", `injectDevices` returns the spec unchanged
together with the wrapped incompatible-device-request error: the injector
performs no spec mutation of its own before delegating. -/
theorem injectDevices_cdi_absent_unchanged (reg : String → Option deviceDriver)
    (i : cdiDeviceInjector) (s : Spec) (dev : deviceInstance)
    (hne : getRequestedDevicesIDs dev.req ≠ []) (hreg : reg "cdi" = none) :
    i.injectDevices reg s dev =
      (s, some (.wrap "no CDI device driver registered"
        (.incompatibleDeviceRequest dev.req.driver dev.req.capabilities))) :=
  injectDevices_of_absent i reg s dev hne hreg

/-- C9 (witness). -/
theorem injectDevices_cdi_absent_unchanged_witness :
    cdiDeviceInjector.injectDevices ⟨"vendor/class"⟩ (fun _ => none) spec0
      { req := { req0 with count := -1 }, selectedCaps := [] } =
      (spec0, some (.wrap "no CDI device driver registered"
        (.incompatibleDeviceRequest "" []))) :=
  injectDevices_cdi_absent_unchanged (fun _ => none) ⟨"vendor/class"⟩ spec0
    { req := { req0 with count := -1 }, selectedCaps := [] } (by decide) rfl

/-- C10: normalization is idempotent: normalizing an already-normalized
device identifier returns it unchanged. -/
theorem normalizeDeviceID_idempotent (i : cdiDeviceInjector) (deviceID : String) :
    i.normalizeDeviceID (i.normalizeDeviceID deviceID) = i.normalizeDeviceID deviceID := by
  by_cases hm : '=' ∈ deviceID.data
  · rw [normalizeDeviceID_of_mem i deviceID hm]
    exact normalizeDeviceID_of_mem i deviceID hm
  · rw [normalizeDeviceID_of_not_mem i deviceID hm]
    exact normalizeDeviceID_of_mem i _ (eq_mem_appended _ _)

end Daemon
